import Mathlib

/-!
Verification of the pybpf kernel-side scaffolding: the map-declaration
macro layer (`src/pybpf/cc/pybpf.bpf.h`) and the example eBPF programs
under `src/tests/`.  Pure compile-time macros are embedded as Lean
functions from their macro parameters to an emitted map descriptor;
the example programs are embedded as state-transition functions over
explicit world states.  The kernel-side ring-buffer implementation and
the BPF helper functions are not part of this repository, so those are
modelled from the specification's description of the protocol (each such
definition carries a doc comment saying so).
-/

namespace PyBpf

/-! ## Map declaration layer (`src/pybpf/cc/pybpf.bpf.h`) -/

/-- The BPF map type tags used by the header's macros
(`BPF_MAP_TYPE_RINGBUF`, `BPF_MAP_TYPE_HASH`, ...). -/
inductive MapType where
  | ringbuf
  | hash
  | lru_hash
  | percpu_hash
  | lru_percpu_hash
  | array
  | percpu_array
  deriving DecidableEq, Repr

/-- C types that appear as key/value types in the repository's map
declarations.  `size` is the C `sizeof` on the LP64 targets BPF uses. -/
inductive CTy where
  | c_int
  | c_uint
  | c_long
  | c_ulong
  deriving DecidableEq, Repr

def CTy.size : CTy → Nat
  | .c_int => 4
  | .c_uint => 4
  | .c_long => 8
  | .c_ulong => 8

/-- The emitted map descriptor: the fields recorded by the `__uint`/`__type`
annotations inside the anonymous struct each macro expands to.  A field a
macro does not emit is `none` (the ringbuf macro emits only `type` and
`max_entries`). -/
structure MapDef where
  type : MapType
  max_entries : Nat
  key : Option CTy
  value : Option CTy
  map_flags : Option Nat
  deriving DecidableEq, Repr

/-- Key size as the loader derives it from the descriptor (0 when absent). -/
def MapDef.keySize (m : MapDef) : Nat := (m.key.map CTy.size).getD 0

/-- Value size as the loader derives it from the descriptor (0 when absent). -/
def MapDef.valueSize (m : MapDef) : Nat := (m.value.map CTy.size).getD 0

/-- `#define PAGE_SIZE 4096` (guarded by `#ifndef PAGE_SIZE`, so the host
environment may override it; the parameterized variant below models that). -/
def PAGE_SIZE : Nat := 4096

/-- `BPF_RINGBUF(NAME, PAGES)` with an explicit page size, modelling the
`#ifndef PAGE_SIZE` override hook: emits
`type = BPF_MAP_TYPE_RINGBUF, max_entries = (1 << PAGES) * PAGE_SIZE`. -/
def BPF_RINGBUF_withPageSize (pageSize pages : Nat) : MapDef :=
  { type := .ringbuf
    max_entries := (1 <<< pages) * pageSize
    key := none
    value := none
    map_flags := none }

/-- `BPF_RINGBUF(NAME, PAGES)` with the header's default `PAGE_SIZE`. -/
def BPF_RINGBUF (pages : Nat) : MapDef :=
  BPF_RINGBUF_withPageSize PAGE_SIZE pages

/-- `BPF_HASH(NAME, KEY, VALUE, SIZE, FLAGS)`. -/
def BPF_HASH (key value : CTy) (size flags : Nat) : MapDef :=
  { type := .hash
    max_entries := size
    key := some key
    value := some value
    map_flags := some flags }

/-- `BPF_LRU_HASH(NAME, KEY, VALUE, SIZE, FLAGS)`. -/
def BPF_LRU_HASH (key value : CTy) (size flags : Nat) : MapDef :=
  { type := .lru_hash
    max_entries := size
    key := some key
    value := some value
    map_flags := some flags }

/-- `BPF_PERCPU_HASH(NAME, KEY, VALUE, SIZE, FLAGS)`. -/
def BPF_PERCPU_HASH (key value : CTy) (size flags : Nat) : MapDef :=
  { type := .percpu_hash
    max_entries := size
    key := some key
    value := some value
    map_flags := some flags }

/-- `BPF_LRU_PERCPU_HASH(NAME, KEY, VALUE, SIZE, FLAGS)`. -/
def BPF_LRU_PERCPU_HASH (key value : CTy) (size flags : Nat) : MapDef :=
  { type := .lru_percpu_hash
    max_entries := size
    key := some key
    value := some value
    map_flags := some flags }

/-- `BPF_ARRAY(NAME, VALUE, SIZE, FLAGS)`: no key parameter; the macro
hard-codes `__type(key, unsigned int)`. -/
def BPF_ARRAY (value : CTy) (size flags : Nat) : MapDef :=
  { type := .array
    max_entries := size
    key := some .c_uint
    value := some value
    map_flags := some flags }

/-- `BPF_PERCPU_ARRAY(NAME, VALUE, SIZE, FLAGS)`: no key parameter; the
macro hard-codes `__type(key, unsigned int)`. -/
def BPF_PERCPU_ARRAY (value : CTy) (size flags : Nat) : MapDef :=
  { type := .percpu_array
    max_entries := size
    key := some .c_uint
    value := some value
    map_flags := some flags }

end PyBpf

namespace PyBpf

/-! ## Theorems for the map declaration layer -/

/-- C1: every declaration macro emits exactly its parameters as the
descriptor's type tag, max_entries, key type, value type and map_flags;
the FLAGS argument is forwarded verbatim, uninterpreted and unvalidated
(the equalities hold for every flags value); the ringbuf macro, whose
spec-level capacity parameter is the byte size `2^pages * PAGE_SIZE`,
emits exactly that and no key/value/flags fields. -/
theorem map_macros_emit_parameters_verbatim :
    (∀ k v s f, (BPF_HASH k v s f).type = MapType.hash ∧
      (BPF_HASH k v s f).max_entries = s ∧
      (BPF_HASH k v s f).key = some k ∧
      (BPF_HASH k v s f).value = some v ∧
      (BPF_HASH k v s f).map_flags = some f) ∧
    (∀ k v s f, (BPF_LRU_HASH k v s f).type = MapType.lru_hash ∧
      (BPF_LRU_HASH k v s f).max_entries = s ∧
      (BPF_LRU_HASH k v s f).key = some k ∧
      (BPF_LRU_HASH k v s f).value = some v ∧
      (BPF_LRU_HASH k v s f).map_flags = some f) ∧
    (∀ k v s f, (BPF_PERCPU_HASH k v s f).type = MapType.percpu_hash ∧
      (BPF_PERCPU_HASH k v s f).max_entries = s ∧
      (BPF_PERCPU_HASH k v s f).key = some k ∧
      (BPF_PERCPU_HASH k v s f).value = some v ∧
      (BPF_PERCPU_HASH k v s f).map_flags = some f) ∧
    (∀ k v s f, (BPF_LRU_PERCPU_HASH k v s f).type = MapType.lru_percpu_hash ∧
      (BPF_LRU_PERCPU_HASH k v s f).max_entries = s ∧
      (BPF_LRU_PERCPU_HASH k v s f).key = some k ∧
      (BPF_LRU_PERCPU_HASH k v s f).value = some v ∧
      (BPF_LRU_PERCPU_HASH k v s f).map_flags = some f) ∧
    (∀ v s f, (BPF_ARRAY v s f).type = MapType.array ∧
      (BPF_ARRAY v s f).max_entries = s ∧
      (BPF_ARRAY v s f).keySize = CTy.c_uint.size ∧
      (BPF_ARRAY v s f).value = some v ∧
      (BPF_ARRAY v s f).map_flags = some f) ∧
    (∀ v s f, (BPF_PERCPU_ARRAY v s f).type = MapType.percpu_array ∧
      (BPF_PERCPU_ARRAY v s f).max_entries = s ∧
      (BPF_PERCPU_ARRAY v s f).keySize = CTy.c_uint.size ∧
      (BPF_PERCPU_ARRAY v s f).value = some v ∧
      (BPF_PERCPU_ARRAY v s f).map_flags = some f) ∧
    (∀ pages, (BPF_RINGBUF pages).type = MapType.ringbuf ∧
      (BPF_RINGBUF pages).max_entries = 2 ^ pages * PAGE_SIZE ∧
      (BPF_RINGBUF pages).key = none ∧
      (BPF_RINGBUF pages).value = none ∧
      (BPF_RINGBUF pages).map_flags = none) := by
  refine ⟨?_, ?_, ?_, ?_, ?_, ?_, ?_⟩ <;>
    intros <;>
    simp [BPF_HASH, BPF_LRU_HASH, BPF_PERCPU_HASH, BPF_LRU_PERCPU_HASH,
      BPF_ARRAY, BPF_PERCPU_ARRAY, BPF_RINGBUF, BPF_RINGBUF_withPageSize,
      MapDef.keySize, Nat.shiftLeft_eq]

/-- C2: `BPF_RINGBUF(name, pages)` always emits byte capacity
`2^pages * pageSize`, for every non-negative pages and every host page
size; with the default page size 4096 and pages = 1 the capacity is
exactly 8192; pages = 0 yields exactly one page. -/
theorem ringbuf_capacity_pow2_pages :
    (∀ pageSize pages,
      (BPF_RINGBUF_withPageSize pageSize pages).max_entries
        = 2 ^ pages * pageSize) ∧
    (∀ pages, (BPF_RINGBUF pages).max_entries = 2 ^ pages * 4096) ∧
    (BPF_RINGBUF 1).max_entries = 8192 ∧
    (∀ pageSize,
      (BPF_RINGBUF_withPageSize pageSize 0).max_entries = pageSize) := by
  refine ⟨?_, ?_, ?_, ?_⟩ <;>
    intros <;>
    simp [BPF_RINGBUF, BPF_RINGBUF_withPageSize, PAGE_SIZE, Nat.shiftLeft_eq]

/-- Array-map lookup as the kernel resolves an index key: the key is an
index into the preallocated entries, valid exactly on `[0, size)`.
Modelled from the spec: `bpf_map_lookup_elem` on an array map is kernel
code, not part of this repository; the spec fixes its contract as an
unsigned index in `[0, size)` resolving to the entry, failing outside. -/
def arrayLookup (entries : List Nat) (i : Nat) : Option Nat :=
  entries.get? i

/-- C8: the array macros accept no key type parameter — the emitted key
type is the fixed 4-byte `unsigned int`, identical for all choices of the
caller-supplied arguments (so it is never caller-supplied) — and an index
key at or beyond `size` fails to resolve, so valid keys are exactly
`[0, size)`. -/
theorem array_key_is_fixed_unsigned_index :
    (∀ v s f, (BPF_ARRAY v s f).key = some CTy.c_uint ∧
      (BPF_PERCPU_ARRAY v s f).key = some CTy.c_uint) ∧
    (∀ v s f v' s' f', (BPF_ARRAY v s f).key = (BPF_ARRAY v' s' f').key ∧
      (BPF_PERCPU_ARRAY v s f).key = (BPF_PERCPU_ARRAY v' s' f').key) ∧
    CTy.c_uint.size = 4 ∧
    (∀ (entries : List Nat) (k : Nat),
      arrayLookup entries (entries.length + k) = none) := by
  refine ⟨?_, ?_, rfl, ?_⟩
  · intros; exact ⟨rfl, rfl⟩
  · intros; exact ⟨rfl, rfl⟩
  · intro entries k
    simp [arrayLookup, List.get?_eq_none]

/-! ## Ring buffer protocol

Modelled from the spec: the kernel-side ring buffer implementation
(`bpf_ringbuf_reserve` / `bpf_ringbuf_submit` / `bpf_ringbuf_discard`
and the user-space drain loop) is not part of this repository — the
repository only declares ring buffer maps and calls the helpers from
its example programs.  The model follows the spec's protocol: records
move `Free → Reserved → {Submitted | Discarded}`; `reserve` carves
`size` bytes from free space or fails fast leaving the ring unchanged;
the consumer observes submitted records in reservation order, and an
unsubmitted earlier reservation blocks later submitted records from
becoming visible; a discard frees the space without ever surfacing the
payload. -/

/-- A record's lifecycle state after reservation. -/
inductive RecState where
  | reserved
  | submitted
  | discarded
  deriving DecidableEq, Repr

/-- One reserved record: its reserved length in bytes, its payload bytes,
its lifecycle state, and whether its completion requested a forced
consumer wakeup (`BPF_RB_FORCE_WAKEUP`). -/
structure RBRec where
  size : Nat
  payload : List Nat
  state : RecState
  wakeup : Bool
  deriving DecidableEq, Repr

/-- A ring buffer instance: its byte capacity, the records not yet
drained by the consumer in reservation order, and whether a completion
with the force-wakeup flag has signalled the consumer since the last
drain. -/
structure Ring where
  capacity : Nat
  recs : List RBRec
  wakeupPending : Bool
  deriving DecidableEq, Repr

/-- A fresh, quiescent ring of the given byte capacity. -/
def Ring.init (capacity : Nat) : Ring :=
  { capacity := capacity, recs := [], wakeupPending := false }

/-- Bytes currently occupied: reservations and submitted-but-undrained
records hold their space; a discarded record's space is available again
(spec: "discard makes reserved space available again for a subsequent
reserve"). -/
def Ring.usedBytes (r : Ring) : Nat :=
  (r.recs.filter (fun x => x.state ≠ RecState.discarded)).foldr
    (fun x acc => x.size + acc) 0

/-- Bytes currently free for new reservations. -/
def Ring.freeBytes (r : Ring) : Nat := r.capacity - r.usedBytes

def BPF_RB_NO_WAKEUP : Nat := 1
def BPF_RB_FORCE_WAKEUP : Nat := 2

/-- Replace the record at position `i` (identity when out of range). -/
def modifyRec (f : RBRec → RBRec) : Nat → List RBRec → List RBRec
  | _, [] => []
  | 0, x :: xs => f x :: xs
  | n + 1, x :: xs => x :: modifyRec f n xs

/-- Modelled from the spec: `bpf_ringbuf_reserve(ring, size, flags)`
carves `size` contiguous bytes from the ring's free space if available,
returning a handle to the fresh reservation; otherwise it fails fast
with a null signal and the ring is unchanged. -/
def bpf_ringbuf_reserve (r : Ring) (size flags : Nat) : Option Nat × Ring :=
  if size ≤ r.freeBytes then
    (some r.recs.length,
      { r with recs := r.recs ++
          [{ size := size, payload := List.replicate size 0,
             state := RecState.reserved, wakeup := false }] })
  else
    (none, r)

/-- Little-endian byte encoding of a 32-bit store (`*p = v` on a
4-byte int). -/
def u32Bytes (v : Nat) : List Nat :=
  [v % 256, v / 256 % 256, v / 65536 % 256, v / 16777216 % 256]

/-- Decode the 32-bit value a consumer reads back from a 4-byte record. -/
def u32OfBytes (bs : List Nat) : Nat :=
  match bs with
  | [b0, b1, b2, b3] => b0 + b1 * 256 + b2 * 65536 + b3 * 16777216
  | _ => 0

/-- The producer writing through the reserved pointer: `*p = v` stores
the 32-bit value into the reservation's payload. -/
def writeU32 (r : Ring) (id : Nat) (v : Nat) : Ring :=
  { r with recs := modifyRec (fun x => { x with payload := u32Bytes v }) id r.recs }

/-- Modelled from the spec: `bpf_ringbuf_submit(rec, flags)` publishes a
reservation so the consumer can observe it in reservation order; the
`BPF_RB_FORCE_WAKEUP` flag requests that the consumer be signalled
immediately instead of coalesced/deferred. -/
def bpf_ringbuf_submit (r : Ring) (id : Nat) (flags : Nat) : Ring :=
  { r with
    recs := modifyRec
      (fun x => if x.state = RecState.reserved then
          { x with state := RecState.submitted,
                   wakeup := flags = BPF_RB_FORCE_WAKEUP }
        else x) id r.recs
    wakeupPending := r.wakeupPending ||
      (match r.recs.get? id with
       | some x => decide (x.state = RecState.reserved) &&
           decide (flags = BPF_RB_FORCE_WAKEUP)
       | none => false) }

/-- Modelled from the spec: `bpf_ringbuf_discard(rec, flags)` frees a
reservation without making it visible; same wakeup-flag semantics as
submit. -/
def bpf_ringbuf_discard (r : Ring) (id : Nat) (flags : Nat) : Ring :=
  { r with
    recs := modifyRec
      (fun x => if x.state = RecState.reserved then
          { x with state := RecState.discarded,
                   wakeup := flags = BPF_RB_FORCE_WAKEUP }
        else x) id r.recs
    wakeupPending := r.wakeupPending ||
      (match r.recs.get? id with
       | some x => decide (x.state = RecState.reserved) &&
           decide (flags = BPF_RB_FORCE_WAKEUP)
       | none => false) }

/-- The completed (no longer reserved) leading records of the ring:
visibility stops at the first still-pending reservation, so an
unsubmitted earlier reservation blocks later submitted records. -/
def Ring.completedRecs (r : Ring) : List RBRec :=
  r.recs.takeWhile (fun x => x.state ≠ RecState.reserved)

/-- Modelled from the spec: the consumer's drain step.  It delivers, in
ring order, every submitted record of the completed prefix (discarded
records are skipped and never surface), frees that prefix, and clears
the wakeup signal. -/
def Ring.poll (r : Ring) : List RBRec × Ring :=
  (r.completedRecs.filter (fun x => x.state = RecState.submitted),
   { r with
     recs := r.recs.dropWhile (fun x => x.state ≠ RecState.reserved),
     wakeupPending := false })

/-- No record of the ring is stuck in the transient `Reserved` state. -/
def Ring.noReserved (r : Ring) : Prop :=
  ∀ x ∈ r.recs, x.state ≠ RecState.reserved

instance (r : Ring) : Decidable r.noReserved := by
  unfold Ring.noReserved; infer_instance

/-! ## The ring buffer test fixtures
(`src/tests/bpf_src/ringbuf.bpf.c` and
`src/tests/object/bpf_src/ringbuf.bpf.c`) -/

/-- `sizeof(int)` on the BPF target. -/
def sizeof_int : Nat := 4

/-- The mutable state the two-ring fixture touches: the maps declared by
`BPF_RINGBUF(ringbuf, 3)` and `BPF_RINGBUF(ringbuf2, 3)`. -/
structure RBWorld where
  ringbuf : Ring
  ringbuf2 : Ring
  deriving DecidableEq, Repr

/-- The fixture's initial world: two fresh rings whose capacities come
from the emitted descriptors of `BPF_RINGBUF(ringbuf, 3)` and
`BPF_RINGBUF(ringbuf2, 3)`. -/
def RBWorld.init : RBWorld :=
  { ringbuf := Ring.init (BPF_RINGBUF 3).max_entries
    ringbuf2 := Ring.init (BPF_RINGBUF 3).max_entries }

/-- One `if (p) { *p = v; bpf_ringbuf_submit(p, BPF_RB_FORCE_WAKEUP); }`
block of the fixture hooks: reserve `sizeof(int)` bytes with flags 0 and,
when the reservation succeeds, write the 32-bit value `v` through the
returned pointer and submit it with a forced wakeup; when it fails, do
nothing. -/
def reserveWriteSubmit (r : Ring) (v : Nat) : Ring :=
  let res := bpf_ringbuf_reserve r sizeof_int 0
  match res.1 with
  | some p => bpf_ringbuf_submit (writeU32 res.2 p v) p BPF_RB_FORCE_WAKEUP
  | none => res.2

/-- The shared body of the fixture hooks: reserve 4 bytes on `ringbuf`,
on success write 5 and submit with `BPF_RB_FORCE_WAKEUP`; then reserve
4 bytes on `ringbuf2`, on success write 10 and submit with
`BPF_RB_FORCE_WAKEUP`; return 0. -/
def ringbufHookBody (w : RBWorld) : RBWorld × Int :=
  ({ ringbuf := reserveWriteSubmit w.ringbuf 5
     ringbuf2 := reserveWriteSubmit w.ringbuf2 10 }, 0)

/-- `do_nanosleep` (tracepoint/syscalls/sys_enter_nanosleep) in
`src/tests/bpf_src/ringbuf.bpf.c`. -/
def do_nanosleep (w : RBWorld) : RBWorld × Int :=
  ringbufHookBody w

/-- `do_clock_nanosleep` (tracepoint/syscalls/sys_enter_clock_nanosleep)
in `src/tests/bpf_src/ringbuf.bpf.c`; its body is identical to
`do_nanosleep`. -/
def do_clock_nanosleep (w : RBWorld) : RBWorld × Int :=
  ringbufHookBody w

/-- `sys_enter` in `src/tests/object/bpf_src/ringbuf.bpf.c`; same body,
but its two rings are declared directly with `max_entries = 1 << 12`. -/
def sys_enter (w : RBWorld) : RBWorld × Int :=
  ringbufHookBody w

/-- The object-fixture's initial world: two fresh rings of `1 << 12`
bytes as declared in `src/tests/object/bpf_src/ringbuf.bpf.c`. -/
def RBWorld.objectInit : RBWorld :=
  { ringbuf := Ring.init (1 <<< 12)
    ringbuf2 := Ring.init (1 <<< 12) }

/-- Modelled from the spec: a consumer poll with a timeout in
milliseconds.  When completed records are pending — and a submit with
`BPF_RB_FORCE_WAKEUP` signals the consumer immediately rather than
letting it wait out the timeout — the poll returns them at once; the
timeout only bounds how long an idle consumer sleeps, so the records
delivered do not depend on its value. -/
def Ring.pollTimeout (r : Ring) (timeoutMs : Nat) : List RBRec × Ring :=
  r.poll

/-- A scenario showing visibility order follows reservation order, not
submission order: on a fresh 16-byte ring, reserve slot A, reserve
slot B, write 1 into A and 2 into B, then submit B BEFORE A. -/
def outOfOrderSubmitRing : Ring :=
  let r0 := Ring.init 16
  let resA := bpf_ringbuf_reserve r0 sizeof_int 0
  match resA.1 with
  | none => r0
  | some a =>
    let resB := bpf_ringbuf_reserve resA.2 sizeof_int 0
    match resB.1 with
    | none => resA.2
    | some b =>
      let r1 := writeU32 (writeU32 resB.2 a 1) b 2
      bpf_ringbuf_submit (bpf_ringbuf_submit r1 b 0) a 0

/-! ## The XDP fixture (`src/tests/bpf_src/xdp.bpf.c`) -/

/-- The `XDP_PASS` verdict code. -/
def XDP_PASS : Nat := 2

/-- The state `xdp_prog` can reach: the entries of the map declared by
`BPF_ARRAY(packet_count, int, 1, 0)` plus every other map in the system,
carried explicitly so the frame effect can be stated. -/
structure XdpWorld where
  packet_count : List Nat
  otherMaps : List (String × List Nat)
  deriving DecidableEq, Repr

/-- Modelled from the spec: `lock_xadd` is used by `xdp_prog` but not
defined in the shown auto-generated header; it is the usual atomic
fetch-and-add on a 32-bit cell, which sequentially adds modulo `2^32`. -/
def lock_xadd (v add : Nat) : Nat := (v + add) % 4294967296

/-- `xdp_prog` in `src/tests/bpf_src/xdp.bpf.c`: look up index 0 of
`packet_count`; on failure return `XDP_PASS`; on success atomically add
1 to the counter and return `XDP_PASS`. -/
def xdp_prog (w : XdpWorld) : XdpWorld × Nat :=
  let zero := 0
  match arrayLookup w.packet_count zero with
  | none => (w, XDP_PASS)
  | some count =>
    ({ w with packet_count := w.packet_count.set zero (lock_xadd count 1) },
     XDP_PASS)

/-! ## The LSM local-storage fixture
(`src/tests/bpf_src/local_storage.bpf.c`) -/

def BPF_LOCAL_STORAGE_GET_F_CREATE : Nat := 1

/-- The state the LSM hooks touch: the per-inode storage map declared by
`BPF_INODE_STORAGE(inode_storage, int, 0)` (an association list from
inode identity to the stored int) and the entries of
`BPF_ARRAY(test_array, int, 1, 0)`. -/
structure LsmWorld where
  inode_storage : List (Nat × Nat)
  test_array : List Nat
  deriving DecidableEq, Repr

/-- Modelled from the spec: `bpf_inode_storage_get(map, inode, value,
flags)` is a kernel helper; it returns the storage already attached to
the inode, or, when `flags` request `BPF_LOCAL_STORAGE_GET_F_CREATE`,
attaches and returns zero-initialized storage; otherwise it returns
null.  The result pairs the returned value with the updated map. -/
def bpf_inode_storage_get (st : List (Nat × Nat)) (inode : Nat)
    (flags : Nat) : Option Nat × List (Nat × Nat) :=
  match st.lookup inode with
  | some v => (some v, st)
  | none =>
    if flags = BPF_LOCAL_STORAGE_GET_F_CREATE then
      (some 0, (inode, 0) :: st)
    else
      (none, st)

/-- Writing through the pointer `bpf_inode_storage_get` returned:
replace the value stored for that inode. -/
def inodeStorageSet (st : List (Nat × Nat)) (inode v : Nat) :
    List (Nat × Nat) :=
  st.map (fun p => if p.1 = inode then (p.1, v) else p)

/-- Modelled from the spec: `bpf_map_update_elem` on an array map with
flags 0 (`BPF_ANY`) replaces the value at the index key. -/
def bpf_map_update_elem (entries : List Nat) (key value flags : Nat) :
    List Nat :=
  entries.set key value

/-- `do_create` (lsm/inode_create): get-or-create inode storage for the
new dentry's inode; bail out if that fails; otherwise store 12. -/
def do_create (w : LsmWorld) (inode : Nat) : LsmWorld × Int :=
  let res := bpf_inode_storage_get w.inode_storage inode
    BPF_LOCAL_STORAGE_GET_F_CREATE
  match res.1 with
  | none => ({ w with inode_storage := res.2 }, 0)
  | some _ =>
    ({ w with inode_storage := inodeStorageSet res.2 inode 12 }, 0)

/-- `do_unlink` (lsm/inode_unlink): look up the inode's storage WITHOUT
the create flag; if null, return 0 immediately; otherwise copy the
stored value into index 0 of `test_array` and return 0. -/
def do_unlink (w : LsmWorld) (inode : Nat) : LsmWorld × Int :=
  let zero := 0
  let res := bpf_inode_storage_get w.inode_storage inode 0
  match res.1 with
  | none => (w, 0)
  | some storage =>
    ({ w with test_array := bpf_map_update_elem w.test_array zero storage 0 },
     0)

/-! ## Program objects and license declarations

The catalog of every BPF object file under `src/tests/`, with the
programs it declares, the kernel helpers each program calls, and the
license string the file exports (via `char _license[] SEC("license")`),
read off the C sources. -/

/-- The kernel helpers called by programs in this repository. -/
inductive Helper where
  | ringbuf_reserve_h
  | ringbuf_submit_h
  | map_lookup_elem_h
  | map_update_elem_h
  | inode_storage_get_h
  | lock_xadd_h
  deriving DecidableEq, Repr

/-- One program declaration: its function name and the helpers its body
calls. -/
structure ProgDecl where
  name : String
  helpers : List Helper
  deriving DecidableEq, Repr

/-- One compiled object: source file, its programs, and the license
string it exports (none when the file has no license section). -/
structure BpfObject where
  file : String
  progs : List ProgDecl
  license : Option String
  deriving DecidableEq, Repr

def ringbuf_obj : BpfObject :=
  { file := "tests/bpf_src/ringbuf.bpf.c"
    progs :=
      [{ name := "do_nanosleep"
         helpers := [Helper.ringbuf_reserve_h, Helper.ringbuf_submit_h] },
       { name := "do_clock_nanosleep"
         helpers := [Helper.ringbuf_reserve_h, Helper.ringbuf_submit_h] }]
    license := none }

def object_ringbuf_obj : BpfObject :=
  { file := "tests/object/bpf_src/ringbuf.bpf.c"
    progs :=
      [{ name := "sys_enter"
         helpers := [Helper.ringbuf_reserve_h, Helper.ringbuf_submit_h] }]
    license := none }

def xdp_obj : BpfObject :=
  { file := "tests/bpf_src/xdp.bpf.c"
    progs :=
      [{ name := "xdp_prog"
         helpers := [Helper.map_lookup_elem_h, Helper.lock_xadd_h] }]
    license := some "GPL" }

def local_storage_obj : BpfObject :=
  { file := "tests/bpf_src/local_storage.bpf.c"
    progs :=
      [{ name := "do_create", helpers := [Helper.inode_storage_get_h] },
       { name := "do_unlink"
         helpers := [Helper.inode_storage_get_h, Helper.map_update_elem_h] }]
    license := some "GPL" }

def maps_obj : BpfObject :=
  { file := "tests/bpf_src/maps.bpf.c"
    progs := []
    license := none }

def prog_obj : BpfObject :=
  { file := "tests/bpf_src/prog.bpf.c"
    progs :=
      [{ name := "fentry_modify_return_test", helpers := [] },
       { name := "fexit_modify_return_test", helpers := [] },
       { name := "tracepoint_sys_enter", helpers := [] },
       { name := "tp_btf_sys_enter", helpers := [] }]
    license := some "GPL" }

def hello_obj : BpfObject :=
  { file := "tests/bpf_src/hello.bpf.c"
    progs := [{ name := "sys_enter", helpers := [] }]
    license := none }

/-- Every BPF object file in the repository. -/
def repoObjects : List BpfObject :=
  [ringbuf_obj, object_ringbuf_obj, xdp_obj, local_storage_obj,
   maps_obj, prog_obj, hello_obj]

/-- The privileged kernel helpers the claim names. -/
def privilegedHelpers : List Helper :=
  [Helper.ringbuf_reserve_h, Helper.inode_storage_get_h,
   Helper.map_update_elem_h]

/-- Whether a program calls any privileged kernel helper. -/
def usesPrivilegedHelper (p : ProgDecl) : Bool :=
  p.helpers.any (fun h => privilegedHelpers.contains h)

/-- License strings the hosting loader recognizes as GPL-compatible. -/
def recognizedLicenses : List String :=
  ["GPL", "GPL v2", "Dual BSD/GPL", "Dual MIT/GPL"]

/-- Whether an object exports a recognized license string. -/
def recognizedLicense (l : Option String) : Bool :=
  match l with
  | some s => recognizedLicenses.contains s
  | none => false

/-- Modelled from the spec: the hosting loader refuses to attach a
program that uses privileged kernel helpers from an object that lacks a
recognized license string. -/
def loaderAttachAllowed (obj : BpfObject) (p : ProgDecl) : Bool :=
  !usesPrivilegedHelper p || recognizedLicense obj.license

/-! ## Helper lemmas -/

theorem modifyRec_concat_self (f : RBRec → RBRec) (l : List RBRec)
    (x : RBRec) : modifyRec f l.length (l ++ [x]) = l ++ [f x] := by
  induction l with
  | nil => rfl
  | cons y ys ih => simpa [modifyRec] using ih

theorem recs_get?_concat_self (l : List RBRec) (x : RBRec) :
    (l ++ [x]).get? l.length = some x := by
  induction l with
  | nil => rfl
  | cons y ys ih => exact ih

/-- The shape of a successful reserve-write-submit block: it appends one
submitted record carrying the written value and signals the consumer. -/
theorem reserveWriteSubmit_of_le (r : Ring) (v : Nat)
    (h : sizeof_int ≤ r.freeBytes) :
    reserveWriteSubmit r v =
      { r with
        recs := r.recs ++
          [{ size := sizeof_int, payload := u32Bytes v,
             state := RecState.submitted, wakeup := true }]
        wakeupPending := true } := by
  rw [reserveWriteSubmit, bpf_ringbuf_reserve]
  simp only [if_pos h, writeU32, bpf_ringbuf_submit, modifyRec_concat_self,
    recs_get?_concat_self, BPF_RB_FORCE_WAKEUP]
  simp [modifyRec_concat_self]

/-- A failing reserve-write-submit block leaves the ring unchanged. -/
theorem reserveWriteSubmit_of_lt (r : Ring) (v : Nat)
    (h : r.freeBytes < sizeof_int) :
    reserveWriteSubmit r v = r := by
  rw [reserveWriteSubmit, bpf_ringbuf_reserve]
  simp only [if_neg (by omega : ¬ sizeof_int ≤ r.freeBytes)]

/-- A reserve-write-submit block never leaves a pending reservation. -/
theorem reserveWriteSubmit_noReserved (r : Ring) (v : Nat)
    (h : r.noReserved) : (reserveWriteSubmit r v).noReserved := by
  by_cases hle : sizeof_int ≤ r.freeBytes
  · rw [reserveWriteSubmit_of_le r v hle]
    intro x hx
    rcases List.mem_append.mp hx with h1 | h2
    · exact h x h1
    · rcases List.mem_singleton.mp h2 with rfl
      simp
  · rw [reserveWriteSubmit_of_lt r v (by omega)]
    exact h

/-! ## Claim theorems for the ring buffer protocol and the programs -/

/-- C3: a consumer observes the records of one ring in exactly the
order they were reserved — the delivered records always form a
subsequence of the ring's reservation-ordered record list, and in the
concrete out-of-order scenario (A reserved before B, B submitted before
A) the consumer still sees A's value before B's; two distinct rings are
fully independent — each ring's post-hook state depends only on that
ring's own prior state — and in the two-ring fixture the first stream
yields exactly value 5 and the second exactly value 10. -/
theorem ring_order_and_independence :
    (∀ r : Ring, List.Sublist r.poll.1 r.recs) ∧
    outOfOrderSubmitRing.poll.1.map (fun x => u32OfBytes x.payload)
      = [1, 2] ∧
    (∀ w w' : RBWorld, w.ringbuf = w'.ringbuf →
      (do_nanosleep w).1.ringbuf = (do_nanosleep w').1.ringbuf) ∧
    (∀ w w' : RBWorld, w.ringbuf2 = w'.ringbuf2 →
      (do_nanosleep w).1.ringbuf2 = (do_nanosleep w').1.ringbuf2) ∧
    (do_nanosleep RBWorld.init).1.ringbuf.poll.1.map
      (fun x => u32OfBytes x.payload) = [5] ∧
    (do_nanosleep RBWorld.init).1.ringbuf2.poll.1.map
      (fun x => u32OfBytes x.payload) = [10] := by
  refine ⟨?_, by decide, ?_, ?_, by decide, by decide⟩
  · intro r
    exact (List.filter_sublist _).trans (List.takeWhile_prefix _).sublist
  · intro w w' h
    simp only [do_nanosleep, ringbufHookBody, h]
  · intro w w' h
    simp only [do_nanosleep, ringbufHookBody, h]

/-- C3 witness: the order-preservation part at a concrete ring and the
independence part at a concrete pair of worlds. -/
theorem ring_order_and_independence_witness :
    List.Sublist outOfOrderSubmitRing.poll.1 outOfOrderSubmitRing.recs ∧
    (do_nanosleep RBWorld.init).1.ringbuf
      = (do_nanosleep RBWorld.init).1.ringbuf :=
  ⟨ring_order_and_independence.1 outOfOrderSubmitRing,
   ring_order_and_independence.2.2.1 RBWorld.init RBWorld.init rfl⟩

/-- C4: a reserve for more bytes than the ring's current free space
returns the null/failure signal and leaves the entire ring state
unchanged; the failed call is a no-op and never blocks the producer. -/
theorem reserve_exceeding_free_space_is_no_op (r : Ring) (size flags : Nat)
    (h : r.freeBytes < size) :
    bpf_ringbuf_reserve r size flags = (none, r) := by
  rw [bpf_ringbuf_reserve, if_neg (by omega)]

/-- C4 witness: on a full (zero-capacity) ring a 4-byte reserve fails
and returns the ring unchanged. -/
theorem reserve_exceeding_free_space_is_no_op_witness :
    (Ring.init 0).freeBytes < 4 ∧
      bpf_ringbuf_reserve (Ring.init 0) 4 0 = (none, Ring.init 0) :=
  ⟨by decide, reserve_exceeding_free_space_is_no_op (Ring.init 0) 4 0 (by decide)⟩

/-- C5: every producer hook in the repository (`do_nanosleep`,
`do_clock_nanosleep`, `sys_enter`) completes every successful
reservation before returning: if no record is pending in the Reserved
state when the hook starts, none is pending when it returns, so a
completed hook execution never leaks reserved capacity. -/
theorem hooks_leave_no_reservation (w : RBWorld)
    (h1 : w.ringbuf.noReserved) (h2 : w.ringbuf2.noReserved) :
    ((do_nanosleep w).1.ringbuf.noReserved ∧
      (do_nanosleep w).1.ringbuf2.noReserved) ∧
    ((do_clock_nanosleep w).1.ringbuf.noReserved ∧
      (do_clock_nanosleep w).1.ringbuf2.noReserved) ∧
    ((sys_enter w).1.ringbuf.noReserved ∧
      (sys_enter w).1.ringbuf2.noReserved) := by
  refine ⟨⟨?_, ?_⟩, ⟨?_, ?_⟩, ⟨?_, ?_⟩⟩ <;>
    first
      | exact reserveWriteSubmit_noReserved w.ringbuf 5 h1
      | exact reserveWriteSubmit_noReserved w.ringbuf2 10 h2

/-- C5 witness: at the fixture's initial world no reservation is
pending after any of the three hooks runs. -/
theorem hooks_leave_no_reservation_witness :
    (do_nanosleep RBWorld.init).1.ringbuf.noReserved ∧
      (sys_enter RBWorld.objectInit).1.ringbuf2.noReserved :=
  ⟨(hooks_leave_no_reservation RBWorld.init (by decide) (by decide)).1.1,
   (hooks_leave_no_reservation RBWorld.objectInit
     (by decide) (by decide)).2.2.2⟩

/-- C6: running `do_nanosleep` once from the quiescent fixture world,
the reservation succeeds, and a polling consumer with a 100ms timeout
observes on `ringbuf` exactly one record, of reserved length exactly 4
with a 4-byte payload, whose payload is the 32-bit value 5; the
forced-wakeup submit has signalled the consumer, so it is delivered
immediately rather than after the timeout. -/
theorem end_to_end_single_record_of_five :
    ((do_nanosleep RBWorld.init).1.ringbuf.pollTimeout 100).1 =
      [{ size := 4, payload := u32Bytes 5,
         state := RecState.submitted, wakeup := true }] ∧
    ((do_nanosleep RBWorld.init).1.ringbuf.pollTimeout 100).1.length = 1 ∧
    ((do_nanosleep RBWorld.init).1.ringbuf.pollTimeout 100).1.map
      (fun x => x.payload.length) = [4] ∧
    ((do_nanosleep RBWorld.init).1.ringbuf.pollTimeout 100).1.map
      (fun x => u32OfBytes x.payload) = [5] ∧
    (do_nanosleep RBWorld.init).1.ringbuf.wakeupPending = true := by
  decide

/-- C7 counterexample: the claim that every program using privileged
kernel helpers exports a recognized license string is false on the
code — `tests/bpf_src/ringbuf.bpf.c` declares `do_nanosleep`, which
calls `bpf_ringbuf_reserve`, yet the file exports no license string at
all. -/
theorem ringbuf_object_lacks_license :
    ringbuf_obj ∈ repoObjects ∧
    ringbuf_obj.progs.any usesPrivilegedHelper = true ∧
    ringbuf_obj.license = none ∧
    ¬ (∀ obj ∈ repoObjects, ∀ p ∈ obj.progs,
        usesPrivilegedHelper p = true → recognizedLicense obj.license = true) := by
  refine ⟨by decide, by decide, rfl, ?_⟩
  intro hall
  have h5 := hall ringbuf_obj (by decide)
    { name := "do_nanosleep"
      helpers := [Helper.ringbuf_reserve_h, Helper.ringbuf_submit_h] }
    (by decide) (by decide)
  exact absurd h5 (by decide)

/-- C7 amended: every object in the repository other than the two
ringbuf fixtures whose programs use privileged kernel helpers exports a
recognized license string, and the (spec-modelled) hosting loader
refuses to attach any privileged-helper program from an object lacking
one. -/
theorem licensed_except_ringbuf_objects :
    (∀ obj ∈ repoObjects,
      obj.file ≠ "tests/bpf_src/ringbuf.bpf.c" →
      obj.file ≠ "tests/object/bpf_src/ringbuf.bpf.c" →
      ∀ p ∈ obj.progs, usesPrivilegedHelper p = true →
        recognizedLicense obj.license = true) ∧
    (∀ (obj : BpfObject) (p : ProgDecl), usesPrivilegedHelper p = true →
      recognizedLicense obj.license = false →
      loaderAttachAllowed obj p = false) := by
  constructor
  · decide
  · intro obj p hp hl
    simp [loaderAttachAllowed, hp, hl]

/-- C7 amended witness: the LSM object is licensed for its privileged
`do_unlink` program, and the loader refuses `do_nanosleep` from the
unlicensed ringbuf object. -/
theorem licensed_except_ringbuf_objects_witness :
    recognizedLicense local_storage_obj.license = true ∧
    loaderAttachAllowed ringbuf_obj
      { name := "do_nanosleep"
        helpers := [Helper.ringbuf_reserve_h, Helper.ringbuf_submit_h] }
      = false :=
  ⟨licensed_except_ringbuf_objects.1 local_storage_obj (by decide)
      (by decide) (by decide)
      { name := "do_unlink"
        helpers := [Helper.inode_storage_get_h, Helper.map_update_elem_h] }
      (by decide) (by decide),
   licensed_except_ringbuf_objects.2 ringbuf_obj
      { name := "do_nanosleep"
        helpers := [Helper.ringbuf_reserve_h, Helper.ringbuf_submit_h] }
      (by decide) (by decide)⟩

/-- C9: on every invocation, `xdp_prog` returns the `XDP_PASS` verdict
in both the lookup-success and lookup-failure branches; all other maps
are untouched, every index other than 0 of `packet_count` keeps its
value (and the array keeps its length); when the lookup at index 0
succeeds the counter is incremented by exactly 1 (as a 32-bit cell),
and when it fails the whole state is unchanged. -/
theorem xdp_prog_frame_effect (w : XdpWorld) :
    (xdp_prog w).2 = XDP_PASS ∧
    (xdp_prog w).1.otherMaps = w.otherMaps ∧
    (∀ i, i ≠ 0 →
      (xdp_prog w).1.packet_count.get? i = w.packet_count.get? i) ∧
    (xdp_prog w).1.packet_count.length = w.packet_count.length ∧
    (∀ c, arrayLookup w.packet_count 0 = some c →
      (xdp_prog w).1.packet_count.get? 0 = some ((c + 1) % 4294967296)) ∧
    (arrayLookup w.packet_count 0 = none → (xdp_prog w).1 = w) := by
  rcases hl : arrayLookup w.packet_count 0 with _ | c
  · refine ⟨?_, ?_, ?_, ?_, ?_, ?_⟩ <;>
      simp [xdp_prog, hl]
  · refine ⟨?_, ?_, ?_, ?_, ?_, ?_⟩
    · simp [xdp_prog, hl]
    · simp [xdp_prog, hl]
    · intro i hi
      simp [xdp_prog, hl, List.getElem?_set_ne (Ne.symm hi)]
    · simp [xdp_prog, hl]
    · intro c' hc'
      rcases Option.some.inj hc' with rfl
      have h0 : w.packet_count.get? 0 = some c := hl
      have hlen : 0 < w.packet_count.length := by
        cases hpc : w.packet_count with
        | nil => rw [hpc] at h0; cases h0
        | cons a l => simp [hpc]
      simp [xdp_prog, hl, lock_xadd, List.getElem?_set_eq_of_lt _ hlen]
    · intro hnone
      exact absurd hnone (by simp)

/-- C9 witness: on the concrete fixture array `[0]` the program passes
the packet and bumps the counter to 1. -/
theorem xdp_prog_frame_effect_witness :
    (xdp_prog { packet_count := [0], otherMaps := [] }).2 = XDP_PASS ∧
    (xdp_prog { packet_count := [0], otherMaps := [] }).1.packet_count.get? 0
      = some ((0 + 1) % 4294967296) :=
  ⟨(xdp_prog_frame_effect { packet_count := [0], otherMaps := [] }).1,
   (xdp_prog_frame_effect { packet_count := [0], otherMaps := [] }).2.2.2.2.1
     0 (by decide)⟩

/-- C10: when `do_unlink`'s inode-storage lookup (no create flag)
returns null the hook returns 0 immediately with the entire world —
`test_array` included — unchanged; when the lookup succeeds, index 0 of
`test_array` is set to exactly the stored value, every other index is
unchanged, the storage map is untouched, and the hook returns 0. -/
theorem do_unlink_null_lookup_no_op (w : LsmWorld) (inode : Nat) :
    ((bpf_inode_storage_get w.inode_storage inode 0).1 = none →
      (do_unlink w inode).1 = w ∧ (do_unlink w inode).2 = 0) ∧
    (∀ v, (bpf_inode_storage_get w.inode_storage inode 0).1 = some v →
      (do_unlink w inode).1.test_array = w.test_array.set 0 v ∧
      (∀ i, i ≠ 0 → (do_unlink w inode).1.test_array.get? i
        = w.test_array.get? i) ∧
      (do_unlink w inode).1.inode_storage = w.inode_storage ∧
      (do_unlink w inode).2 = 0) := by
  constructor
  · intro h
    constructor <;> simp [do_unlink, h]
  · intro v h
    refine ⟨?_, ?_, ?_, ?_⟩
    · simp [do_unlink, h, bpf_map_update_elem]
    · intro i hi
      simp [do_unlink, h, bpf_map_update_elem,
        List.getElem?_set_ne (Ne.symm hi)]
    · simp [do_unlink, h]
    · simp [do_unlink, h]

/-- C10 witness: with empty storage the hook is a no-op on the world;
with storage 12 attached to inode 3 it copies 12 into index 0. -/
theorem do_unlink_null_lookup_no_op_witness :
    (do_unlink { inode_storage := [], test_array := [7] } 3).1
      = { inode_storage := [], test_array := [7] } ∧
    (do_unlink { inode_storage := [(3, 12)], test_array := [0] } 3).1.test_array
      = List.set [0] 0 12 :=
  ⟨((do_unlink_null_lookup_no_op
      { inode_storage := [], test_array := [7] } 3).1 (by decide)).1,
   ((do_unlink_null_lookup_no_op
      { inode_storage := [(3, 12)], test_array := [0] } 3).2 12 (by decide)).1⟩

end PyBpf
